import Mathlib

/-!
Shallow embedding of the Dispatch and Delivery-Strategy Engine of the
whatsapp_scheduler_openwa Express server (server.js).  The four
session-dependent route handlers (/get_groups, /open_whatsapp,
/send_message, /send_poll) are translated as pure functions from the
session state, a stub transport and the parsed JSON request body to an
HTTP response together with the trace of transport calls made.
-/

namespace OpenWa

/-- Process state: the global mutable variables clientReady and client of
server.js; clientSet says whether the client handle is non-null. -/
structure SessionState where
  clientReady : Bool
  clientSet : Bool
deriving DecidableEq

/-- A button object as built by the send_poll handler: { id, text }. -/
structure Button where
  id : String
  text : String
deriving DecidableEq

/-- A list row as built by the send_poll handler: { rowId, title }. -/
structure ListRow where
  rowId : String
  title : String
deriving DecidableEq

/-- A list section as built by the send_poll handler: { title, rows }. -/
structure Section where
  title : String
  rows : List ListRow
deriving DecidableEq

/-- One invocation of a transport primitive on the open-wa client. -/
inductive TransportCall where
  | sendText (chatId body : String)
  | sendPoll (chatId question : String) (options : List String)
  | sendButtons (chatId body : String) (buttons : List Button) (title footer : String)
  | sendListMessage (chatId : String) (sections : List Section)
      (title description actionText : String)
  | getAllChats
deriving DecidableEq

/-- A chat record as returned by client.getAllChats(); participantCount
models groupMetadata?.participants?.length (none when unavailable). -/
structure Chat where
  isGroup : Bool
  name : String
  id : String
  participantCount : Option Nat
deriving DecidableEq

/-- Stub transport: fail gives the thrown error message of a call (none
on success) and chats is the data returned by getAllChats. -/
structure Transport where
  fail : TransportCall → Option String
  chats : List Chat

/-- One group record of the /get_groups response. -/
structure GroupInfo where
  name : String
  id : String
  members : Nat
deriving DecidableEq

/-- JSON response bodies produced by the handlers. -/
inductive RespBody where
  | ok
  | okReady (ready : Bool)
  | okMethod (method : String)
  | okGroups (groups : List GroupInfo)
  | error (message : String)
deriving DecidableEq

/-- An HTTP response: status code plus JSON body. -/
structure HttpResponse where
  code : Nat
  body : RespBody
deriving DecidableEq

/-- Outcome of running one handler: the HTTP response, the transport
calls made, and the session state afterwards (the handlers of server.js
never assign clientReady or client, so state is returned unchanged). -/
structure StepResult where
  response : HttpResponse
  calls : List TransportCall
  state : SessionState
deriving DecidableEq

/-- JS string replace of every non-digit by the empty string:
contact.replace(non-digit regex, empty). -/
def stripNonDigits (s : String) : String :=
  ⟨s.data.filter Char.isDigit⟩

/-- JS includes of a single character. -/
def strContains (s : String) (c : Char) : Bool :=
  s.data.contains c

/-- JS endsWith, on the character sequences. -/
def strEndsWith (s t : String) : Bool :=
  t.data.isSuffixOf s.data

/-- JS truthiness test for an optional string field of the request body:
absent, null or the empty string are falsy. -/
def strFalsy : Option String → Bool
  | none => true
  | some s => s.isEmpty

/-- The send_poll guard on options: !options || options.length === 0. -/
def optsFalsy : Option (List String) → Bool
  | none => true
  | some l => l.isEmpty

/-- JS Array.map with the element index as second callback argument. -/
def mapWithIndex (f : Nat → α → β) : Nat → List α → List β
  | _, [] => []
  | i, a :: as => f i a :: mapWithIndex f (i + 1) as

/-- Chat id computation of the send_poll handler (server.js line 124):
an explicit JID passes through, otherwise digits plus the 1:1 suffix. -/
def resolvePoll (contact : String) : String :=
  if strContains contact '@' then contact
  else stripNonDigits contact ++ "@c.us"

/-- Chat id computation of the send_message handler (server.js line 102):
always digits plus the 1:1 suffix. -/
def resolveMsg (contact : String) : String :=
  stripNonDigits contact ++ "@c.us"

/-- The not-ready error response shared by the gated handlers. -/
def notReadyResponse : HttpResponse :=
  ⟨500, .error "WhatsApp client not ready"⟩

/-- Run one transport call: on success build the given response, on a
thrown error answer 500 with the error message (the catch blocks). -/
def runCall (tp : Transport) (c : TransportCall) (okResp : HttpResponse) :
    HttpResponse × List TransportCall :=
  match tp.fail c with
  | some e => (⟨500, .error e⟩, [c])
  | none => (okResp, [c])

/-- Body of the try block of the send_poll handler after chat id
resolution (server.js lines 127 to 148): group native poll, else
buttons for up to three options, else a list message. -/
def deliverPoll (tp : Transport) (chatId question : String)
    (options : List String) : HttpResponse × List TransportCall :=
  if strEndsWith chatId "@g.us" then
    runCall tp (.sendPoll chatId question options) ⟨200, .okMethod "poll"⟩
  else if options.length ≤ 3 then
    let buttons := mapWithIndex
      (fun i opt => Button.mk ("opt" ++ toString (i + 1)) opt) 0 options
    runCall tp (.sendButtons chatId question buttons "Poll" "Reply by tapping a button")
      ⟨200, .okMethod "buttons"⟩
  else
    let rows := mapWithIndex
      (fun i opt => ListRow.mk ("opt" ++ toString (i + 1)) opt) 0 options
    let sections := [Section.mk "Options" rows]
    runCall tp (.sendListMessage chatId sections "Poll" question "Choose an option")
      ⟨200, .okMethod "list"⟩

/-- Request body of POST /send_message. -/
structure SendMessageRequest where
  contact : Option String
  message : Option String
deriving DecidableEq

/-- Request body of POST /send_poll. -/
structure SendPollRequest where
  contact : Option String
  question : Option String
  options : Option (List String)
deriving DecidableEq

/-- GET /status handler. -/
def statusHandler (s : SessionState) : StepResult :=
  ⟨⟨200, .okReady s.clientReady⟩, [], s⟩

/-- GET /get_groups handler (server.js lines 60 to 79). -/
def getGroupsHandler (s : SessionState) (tp : Transport) : StepResult :=
  if !s.clientReady || !s.clientSet then
    ⟨notReadyResponse, [], s⟩
  else
    match tp.fail .getAllChats with
    | some e => ⟨⟨500, .error e⟩, [.getAllChats], s⟩
    | none =>
      let groups := (tp.chats.filter (·.isGroup)).map fun g =>
        GroupInfo.mk g.name g.id (g.participantCount.getD 0)
      ⟨⟨200, .okGroups groups⟩, [.getAllChats], s⟩

/-- POST /open_whatsapp handler (server.js lines 82 to 87). -/
def openWhatsappHandler (s : SessionState) : StepResult :=
  if !s.clientReady then
    ⟨notReadyResponse, [], s⟩
  else
    ⟨⟨200, .ok⟩, [], s⟩

/-- POST /send_message handler (server.js lines 90 to 109). -/
def sendMessageHandler (s : SessionState) (tp : Transport)
    (req : SendMessageRequest) : StepResult :=
  if !s.clientReady || !s.clientSet then
    ⟨notReadyResponse, [], s⟩
  else if strFalsy req.contact || strFalsy req.message then
    ⟨⟨400, .error "Missing contact or message"⟩, [], s⟩
  else
    let contact := req.contact.getD ""
    let message := req.message.getD ""
    let chatId := resolveMsg contact
    let r := runCall tp (.sendText chatId message) ⟨200, .ok⟩
    ⟨r.1, r.2, s⟩

/-- POST /send_poll handler (server.js lines 112 to 153). -/
def sendPollHandler (s : SessionState) (tp : Transport)
    (req : SendPollRequest) : StepResult :=
  if !s.clientReady || !s.clientSet then
    ⟨notReadyResponse, [], s⟩
  else if strFalsy req.contact || strFalsy req.question || optsFalsy req.options then
    ⟨⟨400, .error "Missing required fields"⟩, [], s⟩
  else
    let contact := req.contact.getD ""
    let question := req.question.getD ""
    let options := req.options.getD []
    let r := deliverPoll tp (resolvePoll contact) question options
    ⟨r.1, r.2, s⟩

/-- A ready session state. -/
def readyState : SessionState := ⟨true, true⟩

/-- A session state before the client finished its handshake. -/
def notReadyState : SessionState := ⟨false, false⟩

/-- A stub transport on which every call succeeds. -/
def okTransport : Transport := ⟨fun _ => none, []⟩

/-- A stub transport on which every call throws with message boom. -/
def failTransport : Transport := ⟨fun _ => some "boom", []⟩

/-- runCall records exactly the one call it was given, succeed or throw. -/
theorem runCall_calls (tp : Transport) (c : TransportCall) (r : HttpResponse) :
    (runCall tp c r).2 = [c] := by
  unfold runCall
  cases tp.fail c <;> rfl

/-- On a throwing call, runCall answers 500 with the thrown message. -/
theorem runCall_fail (tp : Transport) (c : TransportCall) (r : HttpResponse)
    (e : String) (h : tp.fail c = some e) :
    runCall tp c r = (⟨500, .error e⟩, [c]) := by
  unfold runCall
  rw [h]

/-- On a succeeding call, runCall answers with the given response. -/
theorem runCall_ok (tp : Transport) (c : TransportCall) (r : HttpResponse)
    (h : tp.fail c = none) :
    runCall tp c r = (r, [c]) := by
  unfold runCall
  rw [h]

/-- Element lookup through mapWithIndex. -/
theorem mapWithIndex_get? (f : Nat → α → β) (l : List α) (i j : Nat) :
    (mapWithIndex f i l).get? j = (l.get? j).map fun a => f (i + j) a := by
  induction l generalizing i j with
  | nil => simp [mapWithIndex]
  | cons a as ih =>
    cases j with
    | zero => simp [mapWithIndex]
    | succ j =>
      simp only [mapWithIndex, List.get?, ih (i + 1) j]
      rw [Nat.add_assoc, Nat.add_comm 1 j]

/-- Every character surviving stripNonDigits is a digit. -/
theorem stripNonDigits_all_digits (s : String) :
    (stripNonDigits s).data.all Char.isDigit = true := by
  simp only [stripNonDigits, List.all_eq_true]
  intro x hx
  exact List.of_mem_filter hx

/-- C1 counterexample: the descriptor 123-456@g.us contains the character
at-sign, yet the send_message handler does not pass it through unchanged:
it resolves it to 123456@c.us and sends there. -/
theorem C1_counterexample :
    strContains "123-456@g.us" '@' = true ∧
    resolveMsg "123-456@g.us" = "123456@c.us" ∧
    ("123456@c.us" : String) ≠ "123-456@g.us" ∧
    (sendMessageHandler readyState okTransport ⟨some "123-456@g.us", some "hi"⟩).calls =
      [.sendText "123456@c.us" "hi"] := by
  decide

/-- C1 amended: only the send_poll handler resolver passes a descriptor
containing the at-sign through unchanged; the send_message handler always
strips non-digits and appends the 1:1 suffix instead. -/
theorem C1_pass_through (d : String) (h : strContains d '@' = true) :
    resolvePoll d = d ∧ resolveMsg d = stripNonDigits d ++ "@c.us" := by
  refine ⟨?_, rfl⟩
  simp [resolvePoll, h]

/-- C1 witness: pass-through of the send_poll resolver at a group JID. -/
theorem C1_witness :
    resolvePoll "123-456@g.us" = "123-456@g.us" :=
  (C1_pass_through "123-456@g.us" (by decide)).1

/-- C2: the poll delivery decision table. A chat id ending in the group
suffix always yields the native poll call and outcome poll; a non-group
chat id yields outcome buttons for 1 to 3 options and outcome list for
more than 3. -/
theorem C2_decision_table (chatId question : String) (options : List String)
    (tp : Transport) (hok : ∀ c, tp.fail c = none) :
    (strEndsWith chatId "@g.us" = true → options ≠ [] →
        deliverPoll tp chatId question options =
          (⟨200, .okMethod "poll"⟩, [.sendPoll chatId question options])) ∧
    (strEndsWith chatId "@g.us" = false → 1 ≤ options.length → options.length ≤ 3 →
        (deliverPoll tp chatId question options).1 = ⟨200, .okMethod "buttons"⟩) ∧
    (strEndsWith chatId "@g.us" = false → 3 < options.length →
        (deliverPoll tp chatId question options).1 = ⟨200, .okMethod "list"⟩) := by
  refine ⟨fun hg _ => ?_, fun hg _ h3 => ?_, fun hg h4 => ?_⟩
  · simp [deliverPoll, hg, runCall_ok tp _ _ (hok _)]
  · simp [deliverPoll, hg, h3, runCall_ok tp _ _ (hok _)]
  · simp [deliverPoll, hg, Nat.not_le.mpr h4, runCall_ok tp _ _ (hok _)]

/-- C2 witness: one option to a group gives poll; three options to a 1:1
chat give buttons; four options give list. -/
theorem C2_witness :
    deliverPoll okTransport "123-456@g.us" "q" ["a"] =
      (⟨200, .okMethod "poll"⟩, [.sendPoll "123-456@g.us" "q" ["a"]]) ∧
    (deliverPoll okTransport "1@c.us" "q" ["a", "b", "c"]).1 = ⟨200, .okMethod "buttons"⟩ ∧
    (deliverPoll okTransport "1@c.us" "q" ["a", "b", "c", "d"]).1 = ⟨200, .okMethod "list"⟩ :=
  ⟨(C2_decision_table "123-456@g.us" "q" ["a"] okTransport (fun _ => rfl)).1
      (by decide) (by decide),
   (C2_decision_table "1@c.us" "q" ["a", "b", "c"] okTransport (fun _ => rfl)).2.1
      (by decide) (by decide) (by decide),
   (C2_decision_table "1@c.us" "q" ["a", "b", "c", "d"] okTransport (fun _ => rfl)).2.2
      (by decide) (by decide)⟩

/-- C3: while the client is not ready, each of the four session-dependent
handlers answers 500 with the fixed not-ready message, makes no transport
call and leaves the state unchanged. -/
theorem C3_not_ready (s : SessionState) (tp : Transport)
    (mreq : SendMessageRequest) (preq : SendPollRequest)
    (h : s.clientReady = false) :
    sendMessageHandler s tp mreq =
      ⟨⟨500, .error "WhatsApp client not ready"⟩, [], s⟩ ∧
    sendPollHandler s tp preq =
      ⟨⟨500, .error "WhatsApp client not ready"⟩, [], s⟩ ∧
    getGroupsHandler s tp =
      ⟨⟨500, .error "WhatsApp client not ready"⟩, [], s⟩ ∧
    openWhatsappHandler s =
      ⟨⟨500, .error "WhatsApp client not ready"⟩, [], s⟩ := by
  refine ⟨?_, ?_, ?_, ?_⟩ <;>
    simp [sendMessageHandler, sendPollHandler, getGroupsHandler,
      openWhatsappHandler, notReadyResponse, h]

/-- C3 witness: a well-formed poll request against a not-ready session. -/
theorem C3_witness :
    sendPollHandler notReadyState okTransport ⟨some "1", some "q", some ["a"]⟩ =
      ⟨⟨500, .error "WhatsApp client not ready"⟩, [], notReadyState⟩ :=
  (C3_not_ready notReadyState okTransport ⟨some "1", some "hi"⟩
    ⟨some "1", some "q", some ["a"]⟩ rfl).2.1

/-- C4: a descriptor without the at-sign resolves to its digits followed
by the 1:1 suffix, so the result always ends with that suffix, and every
kept character is a digit (an all-non-digit descriptor gives the bare
suffix, accepted by this layer). -/
theorem C4_resolve_no_at (d : String) (h : strContains d '@' = false) :
    resolvePoll d = stripNonDigits d ++ "@c.us" ∧
    strEndsWith (resolvePoll d) "@c.us" = true ∧
    (stripNonDigits d).data.all Char.isDigit = true := by
  have h1 : resolvePoll d = stripNonDigits d ++ "@c.us" := by
    simp [resolvePoll, h]
  refine ⟨h1, ?_, stripNonDigits_all_digits d⟩
  rw [h1]
  unfold strEndsWith
  rw [List.isSuffixOf_iff_suffix, String.data_append]
  exact List.suffix_append _ _

/-- C4 witness: the worked example and the all-non-digit edge case. -/
theorem C4_witness :
    resolvePoll "+31 6 87758933" = "31687758933@c.us" ∧
    resolvePoll "abc" = "@c.us" :=
  ⟨((C4_resolve_no_at "+31 6 87758933" (by decide)).1).trans (by decide),
   ((C4_resolve_no_at "abc" (by decide)).1).trans (by decide)⟩

/-- C5: for a non-group chat id and 1 to 3 options, one button is built
per option with id opt followed by the 1-based index and the option text
as label, sent with title Poll and the fixed footer; end to end, the
Pizza request produces exactly that transport call and the buttons
response. -/
theorem C5_button_fallback (chatId question : String) (options : List String)
    (tp : Transport) (hok : ∀ c, tp.fail c = none)
    (hng : strEndsWith chatId "@g.us" = false)
    (_h1 : 1 ≤ options.length) (h3 : options.length ≤ 3) :
    (∃ buttons,
      deliverPoll tp chatId question options =
        (⟨200, .okMethod "buttons"⟩,
         [.sendButtons chatId question buttons "Poll" "Reply by tapping a button"]) ∧
      ∀ i, buttons.get? i =
        (options.get? i).map fun opt => Button.mk ("opt" ++ toString (i + 1)) opt) ∧
    sendPollHandler readyState okTransport
        ⟨some "31612345678", some "Pizza?", some ["Yes", "No"]⟩ =
      ⟨⟨200, .okMethod "buttons"⟩,
       [.sendButtons "31612345678@c.us" "Pizza?"
          [⟨"opt1", "Yes"⟩, ⟨"opt2", "No"⟩] "Poll" "Reply by tapping a button"],
       readyState⟩ := by
  refine ⟨⟨mapWithIndex (fun i opt => Button.mk ("opt" ++ toString (i + 1)) opt) 0 options,
    ?_, ?_⟩, by decide⟩
  · simp [deliverPoll, hng, h3, runCall_ok tp _ _ (hok _)]
  · intro i
    rw [mapWithIndex_get?]
    simp

/-- C5 witness: the end-to-end Pizza scenario through the theorem. -/
theorem C5_witness :
    ∃ buttons,
      deliverPoll okTransport "31612345678@c.us" "Pizza?" ["Yes", "No"] =
        (⟨200, .okMethod "buttons"⟩,
         [.sendButtons "31612345678@c.us" "Pizza?" buttons "Poll"
            "Reply by tapping a button"]) ∧
      ∀ i, buttons.get? i =
        ((["Yes", "No"] : List String).get? i).map
          fun opt => Button.mk ("opt" ++ toString (i + 1)) opt :=
  (C5_button_fallback "31612345678@c.us" "Pizza?" ["Yes", "No"] okTransport
    (fun _ => rfl) (by decide) (by decide) (by decide)).1

/-- C6 counterexample: the description argument of the list-send call is
the poll question, not a fixed string: two requests differing only in the
question produce list-send calls with different description arguments. -/
theorem C6_counterexample :
    (deliverPoll okTransport "1@c.us" "Q1" ["a", "b", "c", "d"]).2 =
      [.sendListMessage "1@c.us"
        [⟨"Options", [⟨"opt1", "a"⟩, ⟨"opt2", "b"⟩, ⟨"opt3", "c"⟩, ⟨"opt4", "d"⟩]⟩]
        "Poll" "Q1" "Choose an option"] ∧
    (deliverPoll okTransport "1@c.us" "Q2" ["a", "b", "c", "d"]).2 =
      [.sendListMessage "1@c.us"
        [⟨"Options", [⟨"opt1", "a"⟩, ⟨"opt2", "b"⟩, ⟨"opt3", "c"⟩, ⟨"opt4", "d"⟩]⟩]
        "Poll" "Q2" "Choose an option"] ∧
    ("Q1" : String) ≠ "Q2" := by
  decide

/-- C6 amended: for a non-group chat and more than 3 options, one row is
built per option with rowId opt followed by the 1-based index and the
option text as title, all rows under the single section Options, and the
list-send primitive is invoked with fixed title Poll, fixed action text
Choose an option, and the poll question as the description. -/
theorem C6_list_fallback (chatId question : String) (options : List String)
    (tp : Transport) (hng : strEndsWith chatId "@g.us" = false)
    (h4 : 3 < options.length) :
    ∃ rows,
      (deliverPoll tp chatId question options).2 =
        [.sendListMessage chatId [⟨"Options", rows⟩] "Poll" question "Choose an option"] ∧
      ∀ i, rows.get? i =
        (options.get? i).map fun opt => ListRow.mk ("opt" ++ toString (i + 1)) opt := by
  refine ⟨mapWithIndex (fun i opt => ListRow.mk ("opt" ++ toString (i + 1)) opt) 0 options,
    ?_, ?_⟩
  · simp [deliverPoll, hng, Nat.not_le.mpr h4, runCall_calls]
  · intro i
    rw [mapWithIndex_get?]
    simp

/-- C6 witness: four options to a 1:1 chat through the theorem. -/
theorem C6_witness :
    ∃ rows,
      (deliverPoll okTransport "1@c.us" "Pizza?" ["a", "b", "c", "d"]).2 =
        [.sendListMessage "1@c.us" [⟨"Options", rows⟩] "Poll" "Pizza?"
          "Choose an option"] ∧
      ∀ i, rows.get? i =
        ((["a", "b", "c", "d"] : List String).get? i).map
          fun opt => ListRow.mk ("opt" ++ toString (i + 1)) opt :=
  C6_list_fallback "1@c.us" "Pizza?" ["a", "b", "c", "d"] okTransport
    (by decide) (by decide)

/-- runCall makes one call, and a thrown error surfaces as 500 with the
thrown message. -/
theorem runCall_spec (tp : Transport) (c0 : TransportCall) (r : HttpResponse) :
    (runCall tp c0 r).2.length = 1 ∧
    ∀ c e, (runCall tp c0 r).2 = [c] → tp.fail c = some e →
      (runCall tp c0 r).1 = ⟨500, .error e⟩ := by
  refine ⟨by rw [runCall_calls]; rfl, ?_⟩
  intro c e h2 hf
  rw [runCall_calls] at h2
  injection h2 with h2a h2b
  subst h2a
  rw [runCall_fail tp c0 r e hf]

/-- deliverPoll makes exactly one transport call, and a thrown error
surfaces as 500 with the thrown message, with no second strategy. -/
theorem deliverPoll_one_call (tp : Transport) (chatId question : String)
    (options : List String) :
    (deliverPoll tp chatId question options).2.length = 1 ∧
    ∀ c e, (deliverPoll tp chatId question options).2 = [c] → tp.fail c = some e →
      (deliverPoll tp chatId question options).1 = ⟨500, .error e⟩ := by
  unfold deliverPoll
  split
  · exact runCall_spec tp _ _
  · split
    · exact runCall_spec tp _ _
    · exact runCall_spec tp _ _

/-- C7: on a ready session, the send_poll handler performs at most one
transport call; if the chosen primitive throws, no second strategy is
attempted and the response is 500 with the thrown message verbatim. -/
theorem C7_single_transport_call (s : SessionState) (tp : Transport)
    (req : SendPollRequest) (hready : s.clientReady = true) :
    (sendPollHandler s tp req).calls.length ≤ 1 ∧
    ∀ c e, (sendPollHandler s tp req).calls = [c] → tp.fail c = some e →
      (sendPollHandler s tp req).response = ⟨500, .error e⟩ := by
  cases hset : s.clientSet with
  | false => simp [sendPollHandler, hready, hset]
  | true =>
    cases hval : (strFalsy req.contact || strFalsy req.question ||
        optsFalsy req.options) with
    | true => simp [sendPollHandler, hready, hset, hval]
    | false =>
      have hh : sendPollHandler s tp req =
          ⟨(deliverPoll tp (resolvePoll (req.contact.getD ""))
              (req.question.getD "") (req.options.getD [])).1,
           (deliverPoll tp (resolvePoll (req.contact.getD ""))
              (req.question.getD "") (req.options.getD [])).2, s⟩ := by
        simp [sendPollHandler, hready, hset, hval]
      rw [hh]
      exact ⟨Nat.le_of_eq (deliverPoll_one_call tp _ _ _).1,
        (deliverPoll_one_call tp _ _ _).2⟩

/-- C7 witness: a throwing transport under the button strategy gives 500
with the thrown message, after exactly one call. -/
theorem C7_witness :
    (sendPollHandler readyState failTransport ⟨some "1", some "q", some ["a"]⟩).response =
      ⟨500, .error "boom"⟩ :=
  (C7_single_transport_call readyState failTransport
      ⟨some "1", some "q", some ["a"]⟩ rfl).2
    (.sendButtons "1@c.us" "q" [⟨"opt1", "a"⟩] "Poll" "Reply by tapping a button")
    "boom" (by decide) rfl

/-- C8 counterexample: a send_poll request with a missing contact field
against a not-ready session is answered 500 not-ready, not 400: the
readiness gate runs before field validation. -/
theorem C8_counterexample :
    (sendPollHandler notReadyState okTransport ⟨none, some "q", some ["a"]⟩).response =
      ⟨500, .error "WhatsApp client not ready"⟩ ∧
    (sendPollHandler notReadyState okTransport ⟨none, some "q", some ["a"]⟩).response.code ≠
      400 := by
  decide

/-- C8 amended: on a ready session with a non-null client, a send_poll
request with contact, question or options missing or empty is answered
400 Missing required fields with no transport call and no state change;
likewise send_message answers 400 Missing contact or message when contact
or message is missing or empty. -/
theorem C8_validation (s : SessionState) (tp : Transport)
    (preq : SendPollRequest) (mreq : SendMessageRequest)
    (hr : s.clientReady = true) (hs : s.clientSet = true)
    (hp : (strFalsy preq.contact || strFalsy preq.question ||
      optsFalsy preq.options) = true)
    (hm : (strFalsy mreq.contact || strFalsy mreq.message) = true) :
    sendPollHandler s tp preq = ⟨⟨400, .error "Missing required fields"⟩, [], s⟩ ∧
    sendMessageHandler s tp mreq = ⟨⟨400, .error "Missing contact or message"⟩, [], s⟩ := by
  constructor
  · simp [sendPollHandler, hr, hs, hp]
  · simp [sendMessageHandler, hr, hs, hm]

/-- C8 witness: empty bodies against a ready session. -/
theorem C8_witness :
    sendPollHandler readyState okTransport ⟨none, none, none⟩ =
      ⟨⟨400, .error "Missing required fields"⟩, [], readyState⟩ ∧
    sendMessageHandler readyState okTransport ⟨some "", none⟩ =
      ⟨⟨400, .error "Missing contact or message"⟩, [], readyState⟩ :=
  C8_validation readyState okTransport ⟨none, none, none⟩ ⟨some "", none⟩
    rfl rfl (by decide) (by decide)

/-- C9 counterexample: the canonical 1:1 identifier 123@c.us contains the
at-sign, yet the send_message resolver maps it to itself, and the two
resolvers agree on it, so send_message does sometimes reproduce a
caller-supplied canonical identifier unchanged. -/
theorem C9_counterexample :
    strContains "123@c.us" '@' = true ∧
    resolveMsg "123@c.us" = "123@c.us" ∧
    resolveMsg "123@c.us" = resolvePoll "123@c.us" := by
  decide

/-- C9 amended: send_message always resolves to the stripped digits plus
the 1:1 suffix, every kept character being a digit; for a descriptor
containing the at-sign, the send_message and send_poll resolutions agree
exactly when the descriptor already equals its stripped digits plus the
1:1 suffix, and differ otherwise (in particular on group identifiers). -/
theorem C9_always_strip (contact : String) (h : strContains contact '@' = true) :
    resolveMsg contact = stripNonDigits contact ++ "@c.us" ∧
    (stripNonDigits contact).data.all Char.isDigit = true ∧
    (resolveMsg contact = resolvePoll contact ↔
      contact = stripNonDigits contact ++ "@c.us") := by
  refine ⟨rfl, stripNonDigits_all_digits contact, ?_⟩
  have hp : resolvePoll contact = contact := by simp [resolvePoll, h]
  rw [hp, resolveMsg]
  exact eq_comm

/-- C9 witness: on a group identifier the two resolutions differ. -/
theorem C9_witness :
    resolveMsg "123-456@g.us" ≠ resolvePoll "123-456@g.us" := by
  intro he
  exact absurd ((C9_always_strip "123-456@g.us" (by decide)).2.2.mp he) (by decide)

/-- C10: the readiness check precedes field validation: any send_message
or send_poll request on a not-ready session, whatever its body, is
answered 500 not-ready; an answer of 400 can only occur when the client
is ready. -/
theorem C10_gate_before_validation (s : SessionState) (tp : Transport)
    (mreq : SendMessageRequest) (preq : SendPollRequest) :
    (s.clientReady = false →
        (sendMessageHandler s tp mreq).response =
          ⟨500, .error "WhatsApp client not ready"⟩ ∧
        (sendPollHandler s tp preq).response =
          ⟨500, .error "WhatsApp client not ready"⟩) ∧
    ((sendMessageHandler s tp mreq).response.code = 400 → s.clientReady = true) ∧
    ((sendPollHandler s tp preq).response.code = 400 → s.clientReady = true) := by
  refine ⟨fun h => ?_, fun h4 => ?_, fun h4 => ?_⟩
  · constructor <;> simp [sendMessageHandler, sendPollHandler, notReadyResponse, h]
  · cases hr : s.clientReady with
    | true => rfl
    | false => simp [sendMessageHandler, notReadyResponse, hr] at h4
  · cases hr : s.clientReady with
    | true => rfl
    | false => simp [sendPollHandler, notReadyResponse, hr] at h4

/-- C10 witness: a body with every field missing still gets the
not-ready answer on a not-ready session. -/
theorem C10_witness :
    (sendPollHandler notReadyState okTransport ⟨none, none, none⟩).response =
      ⟨500, .error "WhatsApp client not ready"⟩ :=
  ((C10_gate_before_validation notReadyState okTransport ⟨none, none⟩
    ⟨none, none, none⟩).1 rfl).2

end OpenWa
